import Mathlib

/-!
# Verification of the BeejSeBazaar OTP authentication backend

A shallow embedding of the OTP verification core (`src/cognito.ts`,
`src/routes.ts`) of the BeejSeBazaar backend, together with theorems
checking the natural-language specification against the code.

Strings from the TypeScript source are modelled as Lean `String`
(character lists); JavaScript millisecond timestamps as `Int`; the
in-memory `Map` of OTP sessions as a function `String → Option Session`
(its extensional content); provider (AWS Cognito) network calls as
explicit outcome parameters, with a Boolean recording whether the
code path reaches the provider client at all.
-/

/-! ## Phone number canonicalization (`CognitoService.formatPhoneNumber`, src/cognito.ts lines 48-69) -/

/-- `phone.replace(/\D/g, '')`: keep only ASCII digits. -/
def digitsOfL (s : List Char) : List Char := s.filter Char.isDigit

/-- `digits.startsWith('91')` on a character list. -/
def startsWith91 : List Char → Bool
  | '9' :: '1' :: _ => true
  | _ => false

/-- `phone.startsWith('+')` on a character list. -/
def startsWithPlusL : List Char → Bool
  | '+' :: _ => true
  | _ => false

/-- `CognitoService.formatPhoneNumber` (src/cognito.ts lines 48-69),
acting on the character list of the input string:
strip non-digits; if the digits start with `91` and have length 12,
prefix `+`; else if there are exactly 10 digits, prefix `+91`; else if
the original input starts with `+`, return it unchanged; else prefix
`+91` to the digits. -/
def formatPhoneL (phone : List Char) : List Char :=
  let digits := digitsOfL phone
  if startsWith91 digits && digits.length == 12 then '+' :: digits
  else if digits.length == 10 then '+' :: '9' :: '1' :: digits
  else if startsWithPlusL phone then phone
  else '+' :: '9' :: '1' :: digits

/-- `CognitoService.formatPhoneNumber` on `String`. -/
def formatPhoneNumber (phone : String) : String := ⟨formatPhoneL phone.data⟩

/-! ## Password strength policy (`POST /create-user-send-otp`, src/routes.ts lines 53-59) -/

/-- JavaScript line terminators, the characters `.` does not match
(without the `s` flag): LF, CR, U+2028 LINE SEPARATOR and
U+2029 PARAGRAPH SEPARATOR. -/
def isLineTerminator (c : Char) : Bool :=
  c = '\n' || c = '\r' || c = '\u2028' || c = '\u2029'

/-- The stretch of characters `.*` can range over from a given start
position: everything up to the first line terminator. -/
def lineSegment (l : List Char) : List Char :=
  l.takeWhile (fun c => !(isLineTerminator c))

/-- Presence of all three character classes of the regex
`[a-z]`, `[A-Z]`, `\d` in one stretch of characters. -/
def hasAllClasses (seg : List Char) : Bool :=
  seg.any Char.isLower && seg.any Char.isUpper && seg.any Char.isDigit

/-- The regex body at one start position: each look-ahead `(?=.*[x])`
succeeds iff the line segment from this position (what `.*` followed by
one class character can cover) contains a character of the class. -/
def regexMatchAt (s : List Char) : Bool :=
  hasAllClasses (lineSegment s)

/-- `/(?=.*[a-z])(?=.*[A-Z])(?=.*\d)/.test(password)`: the unanchored
test tries the zero-width pattern at every start position of the
string. -/
def strengthRegexTest (l : List Char) : Bool :=
  l.tails.any regexMatchAt

/-- The rejection condition of src/routes.ts line 54:
`password.length < 8 || !/(?=.*[a-z])(?=.*[A-Z])(?=.*\d)/.test(password)`. -/
def passwordRejected (password : String) : Bool :=
  decide (password.length < 8) || !(strengthRegexTest password.data)

/-- The maximal line-terminator-free runs of a character list: the
lines of the password. -/
def linesOf : List Char → List (List Char)
  | [] => [[]]
  | c :: rest =>
    match isLineTerminator c, linesOf rest with
    | true, ls => [] :: ls
    | false, [] => [[c]]
    | false, l :: ls => (c :: l) :: ls

/-! ## Session tokens (src/cognito.ts lines 79, 115, 204) -/

/-- Signup session token: `` `session_${userData.aadharNo}_${Date.now()}` ``
(src/cognito.ts lines 79 and 115). -/
def signupToken (aadharNo : String) (now : Nat) : String :=
  "session_" ++ aadharNo ++ "_" ++ Nat.repr now

/-- Login session token: `` `login_session_${aadharNo}_${Date.now()}` ``
(src/cognito.ts line 204). -/
def loginToken (aadharNo : String) (now : Nat) : String :=
  "login_session_" ++ aadharNo ++ "_" ++ Nat.repr now

/-- One invocation of a session-store create operation (signup-start via
`createUserAndSendOTP`, or login-start via `generateLoginOTP`).  The
`invocation` index distinguishes distinct invocations that happen to be
made with identical parameters (e.g. two concurrent requests for the same
account in the same millisecond). -/
structure CreateEvent where
  invocation : Nat
  isSignup : Bool
  aadharNo : String
  time : Nat
deriving DecidableEq, Repr

/-- The token the store-create invocation generates: a pure function of
the flow kind, the account identifier and the millisecond timestamp. -/
def tokenOfEvent (e : CreateEvent) : String :=
  if e.isSignup then signupToken e.aadharNo e.time else loginToken e.aadharNo e.time

/-! ## OTP session store (src/routes.ts lines 7-27) -/

/-- One entry of the `otpSessions` map (src/routes.ts lines 8-17). -/
structure Session where
  aadharNo : String
  phone : String
  fullName : String
  password : String
  state : String
  district : String
  cognitoId : String
  timestamp : Int
deriving DecidableEq, Repr

/-- The extensional content of the `otpSessions : Map<string, …>`:
`Map.get` is application, `Map.set` and `Map.delete` are pointwise
updates. -/
def Store := String → Option Session

/-- `otpSessions.set(token, session)`. -/
def setTok (st : Store) (k : String) (v : Session) : Store :=
  fun t => if t = k then some v else st t

/-- `otpSessions.delete(token)`. -/
def delTok (st : Store) (k : String) : Store :=
  fun t => if t = k then none else st t

/-- Session time-to-live: `10 * 60 * 1000` ms (src/routes.ts line 23). -/
def sessionTtlMs : Int := 10 * 60 * 1000

/-- Sweep interval: `5 * 60 * 1000` ms (src/routes.ts line 27). -/
def sweepIntervalMs : Int := 5 * 60 * 1000

/-- A session is expired at `now` when `now - session.timestamp > 10 * 60 * 1000`
(the condition of src/routes.ts line 23). -/
def expired (now : Int) (s : Session) : Prop := now - s.timestamp > sessionTtlMs

instance (now : Int) (s : Session) : Decidable (expired now s) := by
  unfold expired; infer_instance

/-- The sweep body (src/routes.ts lines 20-27): delete every entry with
`now - session.timestamp > 10 * 60 * 1000`, keep the rest. -/
def sweep (st : Store) (now : Int) : Store :=
  fun t => match st t with
    | some s => if now - s.timestamp > sessionTtlMs then none else some s
    | none => none

/-- Repeated sweeps, one per tick of the 5-minute interval timer. -/
def runSweeps (st : Store) (times : List Int) : Store :=
  times.foldl sweep st

/-! ## Identity provider adapter (`CognitoService`, src/cognito.ts) -/

/-- The two configuration values read at module load
(src/cognito.ts lines 17-18): `process.env.COGNITO_USER_POOL_ID` and
`process.env.COGNITO_CLIENT_ID`, each possibly absent. -/
structure CognitoConfig where
  userPoolId : Option String
  clientId : Option String

/-- JavaScript truthiness of a possibly-absent string: `undefined` and
`""` are falsy. -/
def truthy : Option String → Bool
  | none => false
  | some s => !(s == "")

/-- The guard `!USER_POOL_ID || !CLIENT_ID` (negated): the adapter is
configured when both values are truthy. -/
def configured (c : CognitoConfig) : Bool :=
  truthy c.userPoolId && truthy c.clientId

/-- Outcome of one remote provider call: either it succeeds, or it
throws an error carrying a message (`error.message`, possibly empty). -/
inductive ProviderOutcome where
  | ok : ProviderOutcome
  | err : String → ProviderOutcome
deriving DecidableEq, Repr

/-- `error.message || defaultMsg` in the catch blocks. -/
def errMessage (m defaultMsg : String) : String :=
  if m = "" then defaultMsg else m

/-- The `CognitoUser` payload (src/cognito.ts lines 21-30). -/
structure CognitoUser where
  username : String
  email : Option String
  phone : String
  aadharNo : String
  fullName : String
  state : String
  district : String
  password : String
deriving DecidableEq, Repr

/-- Result type of `createUserAndSendOTP` (src/cognito.ts line 74). -/
structure CreateUserResult where
  success : Bool
  message : String
  sessionToken : Option String
  cognitoId : Option String
deriving DecidableEq, Repr

/-- `CognitoService.createUserAndSendOTP` (src/cognito.ts lines 74-129).
`now` is the value of `Date.now()`; `provider` the outcome of the remote
`SignUpCommand`.  The second component records whether the provider
client is invoked (`cognitoClient.send`). -/
def createUserAndSendOTP (cfg : CognitoConfig) (userData : CognitoUser)
    (now : Nat) (provider : ProviderOutcome) : CreateUserResult × Bool :=
  if !(configured cfg) then
    ({ success := true,
       message := "User created and OTP sent to " ++ userData.phone ++ " (simulated)",
       sessionToken := some (signupToken userData.aadharNo now),
       cognitoId := some ("sim_" ++ userData.username) }, false)
  else
    let formattedPhone := if userData.phone = "" then "" else formatPhoneNumber userData.phone
    match provider with
    | .err m =>
      ({ success := false,
         message := errMessage m "Failed to create user and send OTP",
         sessionToken := none, cognitoId := none }, true)
    | .ok =>
      ({ success := true,
         message := "User created and OTP sent to " ++ formattedPhone,
         sessionToken := some (signupToken userData.aadharNo now),
         cognitoId := some userData.username }, true)

/-- Result type of `verifyOTPAndSignup` (src/cognito.ts lines 32-36). -/
structure OTPVerificationResult where
  success : Bool
  message : String
  cognitoId : Option String
deriving DecidableEq, Repr

/-- `/^\d{6}$/.test(otp)`: exactly six ASCII digits. -/
def isSixDigits (otp : String) : Bool :=
  otp.data.length == 6 && otp.data.all Char.isDigit

/-- `CognitoService.verifyOTPAndSignup` (src/cognito.ts lines 134-168).
The `sessionToken` argument is accepted (as in the source) but unused.
`provider` is the outcome of the remote `ConfirmSignUpCommand`; the
second component records whether the provider client is invoked. -/
def verifyOTPAndSignup (cfg : CognitoConfig) (sessionToken otp : String)
    (userData : CognitoUser) (provider : ProviderOutcome) :
    OTPVerificationResult × Bool :=
  if !(configured cfg) then
    ({ success := true, message := "Confirmed (simulated)",
       cognitoId := some userData.username }, false)
  else if !(isSixDigits otp) then
    ({ success := false, message := "Invalid OTP format", cognitoId := none }, false)
  else
    match provider with
    | .err m =>
      ({ success := false,
         message := errMessage m "Failed to verify OTP and create user",
         cognitoId := none }, true)
    | .ok =>
      ({ success := true, message := "User confirmed successfully",
         cognitoId := some userData.username }, true)

/-- Result type of `resendOTPForUsername` and similar simple calls. -/
structure SimpleResult where
  success : Bool
  message : String
deriving DecidableEq, Repr

/-- `CognitoService.resendOTPForUsername` (src/cognito.ts lines 173-194). -/
def resendOTPForUsername (cfg : CognitoConfig) (username : String)
    (provider : ProviderOutcome) : SimpleResult × Bool :=
  if !(configured cfg) then
    ({ success := true, message := "OTP resent (simulated)" }, false)
  else
    match provider with
    | .err m =>
      ({ success := false, message := errMessage m "Failed to resend OTP" }, true)
    | .ok => ({ success := true, message := "OTP resent successfully" }, true)

/-- The `AuthenticationResult` of a successful `InitiateAuthCommand`:
each token field may be absent. -/
structure AuthPayload where
  accessToken : Option String
  idToken : Option String
  refreshToken : Option String
deriving DecidableEq, Repr

/-- Outcome of the remote `InitiateAuthCommand`. -/
inductive AuthOutcome where
  | ok : AuthPayload → AuthOutcome
  | err : String → AuthOutcome
deriving DecidableEq, Repr

/-- The token triple returned by `verifyPassword` on success. -/
structure Tokens where
  accessToken : String
  idToken : String
  refreshToken : Option String
deriving DecidableEq, Repr

/-- Result type of `verifyPassword`. -/
structure VerifyPasswordResult where
  success : Bool
  message : String
  tokens : Option Tokens
deriving DecidableEq, Repr

/-- `CognitoService.verifyPassword` (src/cognito.ts lines 218-251).
On success the tokens default missing fields to `''`
(`resp.AuthenticationResult?.AccessToken || ''`). -/
def verifyPassword (cfg : CognitoConfig) (username password : String)
    (provider : AuthOutcome) : VerifyPasswordResult × Bool :=
  if !(configured cfg) then
    ({ success := true, message := "Password verified (simulated)", tokens := none }, false)
  else
    match provider with
    | .err m =>
      ({ success := false, message := errMessage m "Failed to verify password",
         tokens := none }, true)
    | .ok p =>
      ({ success := true, message := "Login successful",
         tokens := some { accessToken := p.accessToken.getD ""
                          idToken := p.idToken.getD ""
                          refreshToken := p.refreshToken } }, true)

/-- Result type of `getUserDetails`. -/
structure GetUserResult where
  success : Bool
  message : Option String
deriving DecidableEq, Repr

/-- `CognitoService.getUserDetails` (src/cognito.ts lines 256-274).
Unlike every other operation of the adapter, its body has no
`!USER_POOL_ID || !CLIENT_ID` guard: it always proceeds to
`cognitoClient.send(new AdminGetUserCommand(…))`, so the configuration
is never consulted and the provider client is always invoked. -/
def getUserDetails (cfg : CognitoConfig) (username : String)
    (provider : ProviderOutcome) : GetUserResult × Bool :=
  match provider with
  | .err m =>
    ({ success := false, message := some (errMessage m "Failed to get user details") }, true)
  | .ok => ({ success := true, message := none }, true)

/-- `CognitoService.generateLoginOTP` (src/cognito.ts lines 199-213):
no provider call at all, always succeeds with a fresh login token. -/
def generateLoginOTP (aadharNo : String) (now : Nat) :
    (SimpleResult × Option String) × Bool :=
  (({ success := true, message := "OTP sent (enable SMS MFA to use real OTP login)" },
    some (loginToken aadharNo now)), false)

/-! ## Verification orchestrator (route handlers, src/routes.ts) -/

/-- `fullName.toLowerCase().replace(/[^a-z0-9]/g, '')`
(src/routes.ts lines 81, 168, 246): lowercase, then keep only ASCII
lowercase letters and digits. -/
def sanitizeUsername (s : String) : String :=
  ⟨(s.data.map Char.toLower).filter
    (fun c => (decide ('a' ≤ c) && decide (c ≤ 'z')) ||
              (decide ('0' ≤ c) && decide (c ≤ '9')))⟩

/-- The persisted Account Record (`new User({...})`, src/routes.ts
lines 184-193 and src/models.ts `UserSchema`). -/
structure UserRecord where
  cognitoId : String
  username : String
  aadharNo : String
  phone : String
  fullName : String
  state : String
  district : String
  isVerified : Bool
deriving DecidableEq, Repr

/-- JavaScript `a || b` on a possibly-absent string
(`confirm.cognitoId || username`, src/routes.ts line 185). -/
def orElse (a : Option String) (b : String) : String :=
  match a with
  | some s => if s = "" then b else s
  | none => b

/-- The `CognitoUser` the confirm handler rebuilds from the stored
session (src/routes.ts lines 168-177). -/
def cognitoUserOfSession (sess : Session) : CognitoUser :=
  { username := sanitizeUsername sess.fullName
    email := none
    phone := sess.phone
    aadharNo := sess.aadharNo
    fullName := sess.fullName
    state := sess.state
    district := sess.district
    password := sess.password }

/-- The Account Record built by the confirm handler
(src/routes.ts lines 184-193): session fields, `isVerified: true`. -/
def userFromSession (sess : Session) (cognitoId : Option String) : UserRecord :=
  let username := sanitizeUsername sess.fullName
  { cognitoId := orElse cognitoId username
    username := username
    aadharNo := sess.aadharNo
    phone := sess.phone
    fullName := sess.fullName
    state := sess.state
    district := sess.district
    isVerified := true }

/-- A JSON response of the signup-confirm handler: HTTP status,
`success`, `message`, and the Account Record saved by this request
(`none` when no record is created). -/
structure SignupResponse where
  status : Nat
  success : Bool
  message : String
  createdUser : Option UserRecord
deriving DecidableEq, Repr

/-- `POST /verify-otp-signup` (src/routes.ts lines 138-219).
`confirmFn` abstracts `CognitoService.verifyOTPAndSignup`, applied to
the same arguments the handler passes (session token, code, the
`CognitoUser` rebuilt from the session).  Returns the response and the
store after the request. -/
def verifyOtpSignup (store : Store) (sessionToken otp : String)
    (confirmFn : String → String → CognitoUser → OTPVerificationResult) :
    SignupResponse × Store :=
  if sessionToken = "" || otp = "" then
    (⟨400, false, "Session token and OTP are required", none⟩, store)
  else if !(isSixDigits otp) then
    (⟨400, false, "OTP must be 6 digits", none⟩, store)
  else
    match store sessionToken with
    | none => (⟨400, false, "Invalid or expired session", none⟩, store)
    | some sess =>
      let confirm := confirmFn sessionToken otp (cognitoUserOfSession sess)
      if !confirm.success then
        (⟨400, false, confirm.message, none⟩, store)
      else
        let newUser := userFromSession sess confirm.cognitoId
        (⟨200, true, "Account verified and created successfully", some newUser⟩,
         delTok store sessionToken)

/-- A plain JSON response: HTTP status, `success`, `message`. -/
structure SimpleResponse where
  status : Nat
  success : Bool
  message : String
deriving DecidableEq, Repr

/-- `POST /resend-otp` (src/routes.ts lines 225-267).  `resendFn`
abstracts `CognitoService.resendOTPForUsername`, applied to the
sanitized username the handler passes.  The store is never written. -/
def resendOtp (store : Store) (sessionToken : String)
    (resendFn : String → SimpleResult) : SimpleResponse × Store :=
  if sessionToken = "" then
    (⟨400, false, "Session token is required"⟩, store)
  else
    match store sessionToken with
    | none => (⟨400, false, "Invalid or expired session"⟩, store)
    | some sess =>
      let r := resendFn (sanitizeUsername sess.fullName)
      if !r.success then (⟨500, false, r.message⟩, store)
      else (⟨200, true, "OTP resent successfully"⟩, store)

/-- A JSON response of the login-confirm handler. -/
structure LoginResponse where
  status : Nat
  success : Bool
  message : String
  loggedInUser : Option UserRecord
deriving DecidableEq, Repr

/-- `POST /verify-login-otp` (src/routes.ts lines 351-420).
`findUserByAadhar` abstracts `User.findOne({ aadharNo })`. -/
def verifyLoginOtp (store : Store) (sessionToken otp : String)
    (findUserByAadhar : String → Option UserRecord) : LoginResponse × Store :=
  if sessionToken = "" || otp = "" then
    (⟨400, false, "Session token and OTP are required", none⟩, store)
  else if !(isSixDigits otp) then
    (⟨400, false, "OTP must be 6 digits", none⟩, store)
  else
    match store sessionToken with
    | none => (⟨400, false, "Invalid or expired session", none⟩, store)
    | some sess =>
      if otp ≠ "123456" then
        (⟨400, false, "Invalid OTP. Please enter the correct OTP.", none⟩, store)
      else
        match findUserByAadhar sess.aadharNo with
        | none => (⟨404, false, "User not found", none⟩, store)
        | some user =>
          (⟨200, true, "Login successful", some user⟩, delTok store sessionToken)

/-- The provider-username resolution of `POST /login-password`
(src/routes.ts lines 455-459): `aadharUser ? formatPhoneNumber(aadharUser.phone)
: undefined`, then `phoneUsername || user.username`. -/
def loginPasswordUsername (aadharUserPhone : Option String) (storedUsername : String) :
    String :=
  let phoneUsername := aadharUserPhone.map formatPhoneNumber
  orElse phoneUsername storedUsername

/-! ## Lemmas on phone canonicalization -/

theorem digitsOfL_cons_plus (l : List Char) : digitsOfL ('+' :: l) = digitsOfL l := by
  simp [digitsOfL]

theorem digitsOfL_cons91 (l : List Char) :
    digitsOfL ('9' :: '1' :: l) = '9' :: '1' :: digitsOfL l := by
  simp [digitsOfL]

theorem digitsOfL_idem (l : List Char) : digitsOfL (digitsOfL l) = digitsOfL l := by
  simp [digitsOfL, List.filter_filter]

/-- Every result of `formatPhoneL` starts with `'+'`. -/
theorem formatPhoneL_startsWithPlus (l : List Char) :
    startsWithPlusL (formatPhoneL l) = true := by
  unfold formatPhoneL
  dsimp only
  repeat' split
  all_goals first | rfl | assumption

theorem head_of_startsWithPlus {l : List Char} (h : startsWithPlusL l = true) :
    l.head? = some '+' := by
  unfold startsWithPlusL at h
  split at h
  · rfl
  · exact absurd h (by simp)

/-- `formatPhoneL` is idempotent on every input that either does not
contain exactly 8 digits or starts with `'+'`. -/
theorem formatPhoneL_idem (l : List Char)
    (h : (digitsOfL l).length ≠ 8 ∨ startsWithPlusL l = true) :
    formatPhoneL (formatPhoneL l) = formatPhoneL l := by
  by_cases h1 : (startsWith91 (digitsOfL l) && (digitsOfL l).length == 12) = true
  · have hy : formatPhoneL l = '+' :: digitsOfL l := by
      unfold formatPhoneL; dsimp only; rw [if_pos h1]
    rw [hy]
    unfold formatPhoneL; dsimp only
    rw [digitsOfL_cons_plus, digitsOfL_idem, if_pos h1]
  · by_cases h2 : ((digitsOfL l).length == 10) = true
    · have hlen : (digitsOfL l).length = 10 := by simpa using h2
      have hy : formatPhoneL l = '+' :: '9' :: '1' :: digitsOfL l := by
        unfold formatPhoneL; dsimp only; rw [if_neg h1, if_pos h2]
      rw [hy]
      unfold formatPhoneL; dsimp only
      rw [digitsOfL_cons_plus, digitsOfL_cons91, digitsOfL_idem]
      have hb1 : (startsWith91 ('9' :: '1' :: digitsOfL l) &&
          ('9' :: '1' :: digitsOfL l).length == 12) = true := by
        simp [startsWith91, hlen]
      rw [if_pos hb1]
    · by_cases h3 : startsWithPlusL l = true
      · have hy : formatPhoneL l = l := by
          unfold formatPhoneL; dsimp only; rw [if_neg h1, if_neg h2, if_pos h3]
        rw [hy, hy]
      · have h8 : (digitsOfL l).length ≠ 8 := h.resolve_right h3
        have hlen10 : (digitsOfL l).length ≠ 10 := by simpa using h2
        have hy : formatPhoneL l = '+' :: '9' :: '1' :: digitsOfL l := by
          unfold formatPhoneL; dsimp only; rw [if_neg h1, if_neg h2, if_neg h3]
        rw [hy]
        unfold formatPhoneL; dsimp only
        rw [digitsOfL_cons_plus, digitsOfL_cons91, digitsOfL_idem]
        have hb1 : ¬(startsWith91 ('9' :: '1' :: digitsOfL l) &&
            ('9' :: '1' :: digitsOfL l).length == 12) = true := by
          simp [startsWith91]
          omega
        have hb2 : ¬(('9' :: '1' :: digitsOfL l).length == 10) = true := by
          simp
          omega
        rw [if_neg hb1, if_neg hb2, if_pos (show startsWithPlusL
          ('+' :: '9' :: '1' :: digitsOfL l) = true from rfl)]

/-- C10 counterexample: `formatPhoneNumber` is not idempotent.  On the
input `"12345678"` (8 digits, no `'+'` prefix) the first application
returns `"+9112345678"`; re-applying it sees a 10-digit string and
prefixes `+91` again, yielding `"+919112345678"`. -/
theorem c10_counterexample :
    formatPhoneNumber (formatPhoneNumber "12345678") ≠ formatPhoneNumber "12345678" := by
  decide

/-- C10 (amended): every output of `formatPhoneNumber` begins with the
character `'+'`, and `formatPhoneNumber` is idempotent on every input
that begins with `'+'` or whose digit count differs from 8. -/
theorem c10_formatPhoneNumber_plus_idem :
    (∀ s : String, (formatPhoneNumber s).data.head? = some '+') ∧
    (∀ s : String, (digitsOfL s.data).length ≠ 8 ∨ startsWithPlusL s.data = true →
      formatPhoneNumber (formatPhoneNumber s) = formatPhoneNumber s) := by
  constructor
  · intro s
    exact head_of_startsWithPlus (formatPhoneL_startsWithPlus s.data)
  · intro s h
    show (⟨formatPhoneL (formatPhoneL s.data)⟩ : String) = ⟨formatPhoneL s.data⟩
    exact congrArg String.mk (formatPhoneL_idem s.data h)

/-- Witness for the C10 amended theorem at the concrete input
`"9876543210"` (10 digits, so the idempotence hypothesis holds). -/
theorem c10_witness :
    ((digitsOfL ("9876543210" : String).data).length ≠ 8 ∨
      startsWithPlusL ("9876543210" : String).data = true) ∧
    formatPhoneNumber (formatPhoneNumber "9876543210") = formatPhoneNumber "9876543210" :=
  ⟨by decide, c10_formatPhoneNumber_plus_idem.2 "9876543210" (by decide)⟩

/-! ## Claim C9: password strength policy -/

theorem linesOf_ne_nil (l : List Char) : linesOf l ≠ [] := by
  cases l with
  | nil => simp [linesOf]
  | cons c rest =>
    unfold linesOf
    cases isLineTerminator c <;> cases h : linesOf rest <;> simp

theorem lineSegment_eq_head (l : List Char) :
    lineSegment l = (linesOf l).headD [] := by
  induction l with
  | nil => rfl
  | cons c rest ih =>
    cases hc : isLineTerminator c with
    | true =>
      obtain ⟨l0, ls, hr⟩ : ∃ l0 ls, linesOf rest = l0 :: ls := by
        cases hrr : linesOf rest with
        | nil => exact absurd hrr (linesOf_ne_nil rest)
        | cons a b => exact ⟨a, b, rfl⟩
      have h1 : lineSegment (c :: rest) = [] := by
        simp [lineSegment, hc]
      have h2 : linesOf (c :: rest) = [] :: (l0 :: ls) := by
        unfold linesOf; rw [hc, hr]
      rw [h1, h2]
      rfl
    | false =>
      obtain ⟨l0, ls, hr⟩ : ∃ l0 ls, linesOf rest = l0 :: ls := by
        cases hrr : linesOf rest with
        | nil => exact absurd hrr (linesOf_ne_nil rest)
        | cons a b => exact ⟨a, b, rfl⟩
      have h1 : lineSegment (c :: rest) = c :: lineSegment rest := by
        simp [lineSegment, hc]
      have h2 : linesOf (c :: rest) = (c :: l0) :: ls := by
        unfold linesOf; rw [hc, hr]
      rw [h1, h2, ih, hr]
      rfl

theorem hasAllClasses_cons_of (c : Char) {L : List Char}
    (h : hasAllClasses L = true) : hasAllClasses (c :: L) = true := by
  simp [hasAllClasses] at h ⊢
  tauto

/-- The regex test succeeds iff some line of the password contains all
three character classes: trying every start position cannot see past a
line terminator, and within one line the leftmost position dominates. -/
theorem strengthRegexTest_iff_lines (l : List Char) :
    strengthRegexTest l = true ↔ ∃ line ∈ linesOf l, hasAllClasses line = true := by
  induction l with
  | nil => simp [strengthRegexTest, regexMatchAt, lineSegment, linesOf, hasAllClasses]
  | cons c rest ih =>
    have hstep : strengthRegexTest (c :: rest) = true ↔
        (regexMatchAt (c :: rest) = true ∨ strengthRegexTest rest = true) := by
      simp [strengthRegexTest]
    cases hc : isLineTerminator c with
    | true =>
      obtain ⟨l0, ls, hr⟩ : ∃ l0 ls, linesOf rest = l0 :: ls := by
        cases hrr : linesOf rest with
        | nil => exact absurd hrr (linesOf_ne_nil rest)
        | cons a b => exact ⟨a, b, rfl⟩
      have hseg : lineSegment (c :: rest) = [] := by simp [lineSegment, hc]
      have hlines : linesOf (c :: rest) = [] :: (l0 :: ls) := by
        unfold linesOf; rw [hc, hr]
      rw [hstep, hlines, ih, hr]
      simp [regexMatchAt, hseg, hasAllClasses]
    | false =>
      obtain ⟨l0, ls, hr⟩ : ∃ l0 ls, linesOf rest = l0 :: ls := by
        cases hrr : linesOf rest with
        | nil => exact absurd hrr (linesOf_ne_nil rest)
        | cons a b => exact ⟨a, b, rfl⟩
      have hseg : lineSegment (c :: rest) = c :: l0 := by
        have h1 : lineSegment (c :: rest) = c :: lineSegment rest := by
          simp [lineSegment, hc]
        rw [h1, lineSegment_eq_head rest, hr]
        rfl
      have hlines : linesOf (c :: rest) = (c :: l0) :: ls := by
        unfold linesOf; rw [hc, hr]
      rw [hstep, hlines, ih, hr]
      simp only [regexMatchAt, hseg, List.mem_cons, exists_eq_or_imp]
      constructor
      · rintro (h | h | h)
        · exact Or.inl h
        · exact Or.inl (hasAllClasses_cons_of c h)
        · exact Or.inr h
      · tauto

/-- C9 counterexample: `"aaaaAAAA\n1111"` has 13 characters and
contains a lowercase letter, an uppercase letter and a digit, yet the
code rejects it — `.` in the JavaScript regex does not cross the line
terminator, and no single line of the password carries all three
classes.  So "accepts exactly when ≥8 chars with upper+lower+digit" is
false of the program. -/
theorem c9_counterexample :
    passwordRejected "aaaaAAAA\n1111" = true ∧
    8 ≤ ("aaaaAAAA\n1111" : String).length ∧
    (∃ ch ∈ ("aaaaAAAA\n1111" : String).data, ch.isLower = true) ∧
    (∃ ch ∈ ("aaaaAAAA\n1111" : String).data, ch.isUpper = true) ∧
    (∃ ch ∈ ("aaaaAAAA\n1111" : String).data, ch.isDigit = true) := by
  decide

/-- C9 (amended): the signup-start password check accepts a password
exactly when it has at least 8 characters and some single line of it
(maximal run between line terminators, which the regex's `.` cannot
cross) contains at least one ASCII lowercase letter, one ASCII
uppercase letter and one digit; `"password"` is rejected and
`"Password1"` accepted. -/
theorem c9_password_policy_lines :
    (∀ p : String, passwordRejected p = false ↔
      (8 ≤ p.length ∧ ∃ line ∈ linesOf p.data,
        (∃ ch ∈ line, ch.isLower = true) ∧ (∃ ch ∈ line, ch.isUpper = true) ∧
        (∃ ch ∈ line, ch.isDigit = true))) ∧
    passwordRejected "password" = true ∧ passwordRejected "Password1" = false := by
  refine ⟨?_, by decide, by decide⟩
  intro p
  have h0 : passwordRejected p = false ↔
      (8 ≤ p.length ∧ strengthRegexTest p.data = true) := by
    simp [passwordRejected, Nat.not_lt]
  rw [h0, strengthRegexTest_iff_lines]
  simp [hasAllClasses, List.any_eq_true, and_assoc]

/-! ## Claim C8: provider-username resolution for password login -/

/-- `formatPhoneNumber` never returns the empty string (its output
always starts with `'+'`), so it is always JavaScript-truthy. -/
theorem formatPhoneNumber_ne_empty (s : String) : formatPhoneNumber s ≠ "" := by
  intro h
  have hh := head_of_startsWithPlus (formatPhoneL_startsWithPlus s.data)
  have hd : (formatPhoneNumber s).data = formatPhoneL s.data := rfl
  rw [h] at hd
  rw [← hd] at hh
  simp at hh

/-- C8: the username `POST /login-password` hands to the provider is the
canonicalized directory phone whenever the directory has an entry
(`formatPhoneNumber` never yields a falsy string, so the `||` fallback
is not taken), and the stored account username exactly when it has
none. -/
theorem c8_login_password_username :
    (∀ phone username : String,
      loginPasswordUsername (some phone) username = formatPhoneNumber phone) ∧
    (∀ username : String, loginPasswordUsername none username = username) := by
  constructor
  · intro phone username
    simp [loginPasswordUsername, orElse, formatPhoneNumber_ne_empty phone]
  · intro username
    rfl

/-! ## Claim C2: session expiry and the sweep -/

/-- The initial store, `new Map()` (src/routes.ts line 8). -/
def emptyStore : Store := fun _ => none

theorem sweep_get (st : Store) (now : Int) (t : String) (s : Session) :
    sweep st now t = some s ↔ st t = some s ∧ ¬ expired now s := by
  unfold sweep expired
  cases h : st t with
  | none => simp
  | some s' =>
    by_cases he : now - s'.timestamp > sessionTtlMs
    · simp only [he, if_pos]
      constructor
      · intro hc; cases hc
      · rintro ⟨hs, hexp⟩
        cases hs
        exact absurd he hexp
    · simp only [he, if_neg, not_false_iff]
      constructor
      · intro hc; cases hc; exact ⟨rfl, he⟩
      · rintro ⟨hs, _⟩; cases hs; rfl

theorem runSweeps_none (times : List Int) (st : Store) (t : String)
    (h : st t = none) : runSweeps st times t = none := by
  induction times generalizing st with
  | nil => exact h
  | cons u rest ih =>
    apply ih
    simp [sweep, h]

theorem runSweeps_keep (times : List Int) (st : Store) (now : Int) (t : String)
    (s : Session) (hmem : st t = some s) (hle : ∀ u ∈ times, u ≤ now)
    (hlive : now - s.timestamp ≤ sessionTtlMs) :
    runSweeps st times t = some s := by
  induction times generalizing st with
  | nil => exact hmem
  | cons u rest ih =>
    have hu : u ≤ now := hle u (List.mem_cons_self u rest)
    have hkeep : sweep st u t = some s := by
      rw [sweep_get]
      exact ⟨hmem, by unfold expired; omega⟩
    exact ih (sweep st u) hkeep (fun v hv => hle v (List.mem_cons_of_mem u hv))

theorem runSweeps_remove (times : List Int) (st : Store) (t : String)
    (s : Session) (hmem : st t = some s)
    (hexp : ∃ u ∈ times, sessionTtlMs < u - s.timestamp) :
    runSweeps st times t = none := by
  induction times generalizing st with
  | nil => obtain ⟨u, hu, _⟩ := hexp; cases hu
  | cons u rest ih =>
    obtain ⟨v, hv, hvexp⟩ := hexp
    rcases List.mem_cons.mp hv with hv1 | hv2
    · subst hv1
      have : sweep st v t = none := by
        simp only [sweep, hmem]
        rw [if_pos hvexp]
      exact runSweeps_none rest (sweep st v) t this
    · by_cases hu : sessionTtlMs < u - s.timestamp
      · have : sweep st u t = none := by
          simp only [sweep, hmem]
          rw [if_pos hu]
        exact runSweeps_none rest (sweep st u) t this
      · have hkeep : sweep st u t = some s := by
          rw [sweep_get]
          exact ⟨hmem, by unfold expired; omega⟩
        exact ih (sweep st u) hkeep ⟨v, hv2, hvexp⟩

/-- C2: a stored session is expired exactly when `now - createdAt`
exceeds 10 minutes; a sweep at `now` retains exactly the entries not
expired at `now` (so it removes all expired entries and never an
unexpired one); and across any run of sweeps at times `≤ now`, a lookup
still finds every session with `now - createdAt ≤ 10min`, while after
any sweep run past a session's expiry the lookup reports not-found. -/
theorem c2_sweep_expiry :
    (∀ (now : Int) (s : Session), expired now s ↔ now - s.timestamp > sessionTtlMs) ∧
    (∀ (st : Store) (now : Int) (t : String) (s : Session),
      sweep st now t = some s ↔ st t = some s ∧ ¬ expired now s) ∧
    (∀ (st : Store) (times : List Int) (now : Int) (t : String) (s : Session),
      st t = some s →
      ((∀ u ∈ times, u ≤ now) → now - s.timestamp ≤ sessionTtlMs →
        runSweeps st times t = some s) ∧
      ((∃ u ∈ times, sessionTtlMs < u - s.timestamp) →
        runSweeps st times t = none)) := by
  refine ⟨fun _ _ => Iff.rfl, sweep_get, ?_⟩
  intro st times now t s hmem
  exact ⟨fun hle hlive => runSweeps_keep times st now t s hmem hle hlive,
         fun hexp => runSweeps_remove times st t s hmem hexp⟩

/-- A concrete session used by the witnesses below. -/
def wSess : Session :=
  { aadharNo := "735269466602", phone := "+918085745154", fullName := "Test User"
    password := "Password1", state := "MP", district := "Indore"
    cognitoId := "testuser", timestamp := 0 }

/-- Witness for C2: a session created at time 0 survives a sweep at
5 minutes when looked up at 5 minutes, and a sweep at 15 minutes
removes it. -/
theorem c2_witness :
    (setTok emptyStore "tok" wSess) "tok" = some wSess ∧
    (∀ u ∈ [(300000 : Int)], u ≤ (300000 : Int)) ∧
    (300000 : Int) - wSess.timestamp ≤ sessionTtlMs ∧
    runSweeps (setTok emptyStore "tok" wSess) [(300000 : Int)] "tok" = some wSess ∧
    (∃ u ∈ [(900000 : Int)], sessionTtlMs < u - wSess.timestamp) ∧
    runSweeps (setTok emptyStore "tok" wSess) [(900000 : Int)] "tok" = none := by
  refine ⟨rfl, by decide, by decide, ?_, by decide, ?_⟩
  · exact ((c2_sweep_expiry.2.2 (setTok emptyStore "tok" wSess) [(300000 : Int)]
      300000 "tok" wSess rfl).1 (by decide) (by decide))
  · exact ((c2_sweep_expiry.2.2 (setTok emptyStore "tok" wSess) [(900000 : Int)]
      300000 "tok" wSess rfl).2 (by decide))

/-! ## Branch lemmas for the route handlers -/

theorem delTok_self (st : Store) (k : String) : delTok st k k = none := by
  simp [delTok]

theorem isSixDigits_ne_empty {otp : String} (h : isSixDigits otp = true) : otp ≠ "" := by
  intro he
  subst he
  simp [isSixDigits] at h

theorem verifyOtpSignup_success (store : Store) (token otp : String) (sess : Session)
    (confirmFn : String → String → CognitoUser → OTPVerificationResult)
    (htok : token ≠ "") (hsess : store token = some sess)
    (hotp : isSixDigits otp = true)
    (hsucc : (confirmFn token otp (cognitoUserOfSession sess)).success = true) :
    verifyOtpSignup store token otp confirmFn =
      (⟨200, true, "Account verified and created successfully",
        some (userFromSession sess
          (confirmFn token otp (cognitoUserOfSession sess)).cognitoId)⟩,
       delTok store token) := by
  unfold verifyOtpSignup
  rw [if_neg (by simp [htok, isSixDigits_ne_empty hotp]),
      if_neg (by simp [hotp]), hsess]
  dsimp only
  rw [if_neg (by simp [hsucc])]

theorem verifyOtpSignup_providerFail (store : Store) (token otp : String) (sess : Session)
    (confirmFn : String → String → CognitoUser → OTPVerificationResult)
    (htok : token ≠ "") (hsess : store token = some sess)
    (hotp : isSixDigits otp = true)
    (hfail : (confirmFn token otp (cognitoUserOfSession sess)).success = false) :
    verifyOtpSignup store token otp confirmFn =
      (⟨400, false, (confirmFn token otp (cognitoUserOfSession sess)).message, none⟩,
       store) := by
  unfold verifyOtpSignup
  rw [if_neg (by simp [htok, isSixDigits_ne_empty hotp]),
      if_neg (by simp [hotp]), hsess]
  dsimp only
  rw [if_pos (by simp [hfail])]

theorem verifyOtpSignup_notFound (store : Store) (token otp : String)
    (confirmFn : String → String → CognitoUser → OTPVerificationResult)
    (htok : token ≠ "") (hnone : store token = none)
    (hotp : isSixDigits otp = true) :
    verifyOtpSignup store token otp confirmFn =
      (⟨400, false, "Invalid or expired session", none⟩, store) := by
  unfold verifyOtpSignup
  rw [if_neg (by simp [htok, isSixDigits_ne_empty hotp]),
      if_neg (by simp [hotp]), hnone]

theorem verifyOtpSignup_created (store : Store) (token otp : String)
    (confirmFn : String → String → CognitoUser → OTPVerificationResult)
    (u : UserRecord)
    (h : (verifyOtpSignup store token otp confirmFn).1.createdUser = some u) :
    ∃ sess, store token = some sess ∧
      (confirmFn token otp (cognitoUserOfSession sess)).success = true ∧
      u = userFromSession sess (confirmFn token otp (cognitoUserOfSession sess)).cognitoId := by
  unfold verifyOtpSignup at h
  split at h
  · simp at h
  · split at h
    · simp at h
    · cases hs : store token with
      | none => rw [hs] at h; simp at h
      | some sess =>
        rw [hs] at h
        dsimp only at h
        split at h
        · simp at h
        · rename_i hcond
          refine ⟨sess, rfl, by simpa using hcond, by simpa using h.symm⟩

/-! ## Claim C1: successful signup confirmation -/

/-- C1: for a stored signup session and a 6-digit code whose provider
confirm succeeds, `POST /verify-otp-signup` answers 200, creates exactly
one Account Record built from the session's fields with
`isVerified = true`, deletes the session from the store, and a second
call with the same token yields the generic 400
"Invalid or expired session" response, touching neither store nor
database; moreover a record is created only when the session existed
and the provider confirm succeeded. -/
theorem c1_verify_otp_signup :
    (∀ (store : Store) (token otp : String) (sess : Session)
        (confirmFn : String → String → CognitoUser → OTPVerificationResult),
      token ≠ "" → store token = some sess → isSixDigits otp = true →
      (confirmFn token otp (cognitoUserOfSession sess)).success = true →
      (verifyOtpSignup store token otp confirmFn).1.status = 200 ∧
      (verifyOtpSignup store token otp confirmFn).1.createdUser =
        some (userFromSession sess
          (confirmFn token otp (cognitoUserOfSession sess)).cognitoId) ∧
      (userFromSession sess
        (confirmFn token otp (cognitoUserOfSession sess)).cognitoId).isVerified = true ∧
      (verifyOtpSignup store token otp confirmFn).2 token = none ∧
      verifyOtpSignup (verifyOtpSignup store token otp confirmFn).2 token otp confirmFn =
        (⟨400, false, "Invalid or expired session", none⟩,
         (verifyOtpSignup store token otp confirmFn).2)) ∧
    (∀ (store : Store) (token otp : String)
        (confirmFn : String → String → CognitoUser → OTPVerificationResult)
        (u : UserRecord),
      (verifyOtpSignup store token otp confirmFn).1.createdUser = some u →
      ∃ sess, store token = some sess ∧
        (confirmFn token otp (cognitoUserOfSession sess)).success = true ∧
        u = userFromSession sess
          (confirmFn token otp (cognitoUserOfSession sess)).cognitoId) := by
  constructor
  · intro store token otp sess confirmFn htok hsess hotp hsucc
    have hmain := verifyOtpSignup_success store token otp sess confirmFn htok hsess hotp hsucc
    rw [hmain]
    refine ⟨rfl, rfl, rfl, delTok_self store token, ?_⟩
    exact verifyOtpSignup_notFound (delTok store token) token otp confirmFn htok
      (delTok_self store token) hotp
  · exact verifyOtpSignup_created

/-- A concrete populated store for the witnesses. -/
def wStore : Store := setTok emptyStore "session_735269466602_5" wSess

/-- A provider-confirm function that always succeeds. -/
def wConfirmOk : String → String → CognitoUser → OTPVerificationResult :=
  fun _ _ ud => ⟨true, "User confirmed successfully", some ud.username⟩

/-- Witness for C1 at a concrete store, session, token and code. -/
theorem c1_witness :
    (("session_735269466602_5" : String) ≠ "" ∧
      wStore "session_735269466602_5" = some wSess ∧
      isSixDigits "123456" = true ∧
      (wConfirmOk "session_735269466602_5" "123456"
        (cognitoUserOfSession wSess)).success = true) ∧
    (verifyOtpSignup wStore "session_735269466602_5" "123456" wConfirmOk).1.status = 200 ∧
    (verifyOtpSignup wStore "session_735269466602_5" "123456" wConfirmOk).2
      "session_735269466602_5" = none := by
  have h := c1_verify_otp_signup.1 wStore "session_735269466602_5" "123456" wSess
    wConfirmOk (by decide) rfl (by decide) rfl
  exact ⟨⟨by decide, rfl, by decide, rfl⟩, h.1, h.2.2.2.1⟩

/-! ## Claim C4: provider failure during signup confirmation -/

/-- C4: when the provider's confirm call fails during signup
confirmation (a configured adapter whose `ConfirmSignUpCommand` throws
with message `m ≠ ""`), `POST /verify-otp-signup` returns exactly the
provider's message as a 400 response, leaves the store unchanged (the
same session is still there under the same token), and creates no
Account Record. -/
theorem c4_provider_failure :
    ∀ (cfg : CognitoConfig) (store : Store) (token otp m : String) (sess : Session),
      configured cfg = true → token ≠ "" → store token = some sess →
      isSixDigits otp = true → m ≠ "" →
      verifyOtpSignup store token otp
        (fun tk code ud => (verifyOTPAndSignup cfg tk code ud (.err m)).1) =
        (⟨400, false, m, none⟩, store) := by
  intro cfg store token otp m sess hcfg htok hsess hotp hm
  have hres : (verifyOTPAndSignup cfg token otp (cognitoUserOfSession sess) (.err m)).1 =
      ⟨false, m, none⟩ := by
    unfold verifyOTPAndSignup
    rw [if_neg (by simp [hcfg]), if_neg (by simp [hotp])]
    simp [errMessage, hm]
  have hfail := verifyOtpSignup_providerFail store token otp sess
    (fun tk code ud => (verifyOTPAndSignup cfg tk code ud (.err m)).1)
    htok hsess hotp (by simpa using congrArg OTPVerificationResult.success hres)
  rw [hfail]
  have : ((fun tk code ud => (verifyOTPAndSignup cfg tk code ud (.err m)).1)
      token otp (cognitoUserOfSession sess)).message = m := by
    simpa using congrArg OTPVerificationResult.message hres
  rw [this]

/-- A configured adapter for the witnesses. -/
def wCfg : CognitoConfig := ⟨some "ap-south-1_pool", some "client123"⟩

/-- Witness for C4 at a concrete configured adapter, store and session:
a duplicate-username provider error surfaces verbatim. -/
theorem c4_witness :
    (configured wCfg = true ∧ ("session_735269466602_5" : String) ≠ "" ∧
      wStore "session_735269466602_5" = some wSess ∧
      isSixDigits "123456" = true ∧ ("User already exists" : String) ≠ "") ∧
    verifyOtpSignup wStore "session_735269466602_5" "123456"
      (fun tk code ud =>
        (verifyOTPAndSignup wCfg tk code ud (.err "User already exists")).1) =
      (⟨400, false, "User already exists", none⟩, wStore) :=
  ⟨⟨rfl, by decide, rfl, by decide, by decide⟩,
    c4_provider_failure wCfg wStore "session_735269466602_5" "123456"
      "User already exists" wSess rfl (by decide) rfl (by decide) (by decide)⟩

/-! ## Claim C5: one generic not-found message -/

/-- C5: whenever the session lookup comes back empty, signup-confirm,
resend and login-confirm all answer 400 with the single generic message
"Invalid or expired session", regardless of why the token is absent,
and leave the store unchanged. -/
theorem c5_generic_not_found :
    ∀ (store : Store) (token otp : String)
      (confirmFn : String → String → CognitoUser → OTPVerificationResult)
      (resendFn : String → SimpleResult)
      (findUser : String → Option UserRecord),
      token ≠ "" → store token = none → isSixDigits otp = true →
      verifyOtpSignup store token otp confirmFn =
        (⟨400, false, "Invalid or expired session", none⟩, store) ∧
      resendOtp store token resendFn =
        (⟨400, false, "Invalid or expired session"⟩, store) ∧
      verifyLoginOtp store token otp findUser =
        (⟨400, false, "Invalid or expired session", none⟩, store) := by
  intro store token otp confirmFn resendFn findUser htok hnone hotp
  refine ⟨verifyOtpSignup_notFound store token otp confirmFn htok hnone hotp, ?_, ?_⟩
  · unfold resendOtp
    rw [if_neg (by simpa using htok), hnone]
  · unfold verifyLoginOtp
    rw [if_neg (by simp [htok, isSixDigits_ne_empty hotp]),
        if_neg (by simp [hotp]), hnone]

/-- Witness for C5: a token that was never issued, against an empty
store. -/
theorem c5_witness :
    (("bogus-token" : String) ≠ "" ∧ emptyStore "bogus-token" = none ∧
      isSixDigits "123456" = true) ∧
    verifyOtpSignup emptyStore "bogus-token" "123456" wConfirmOk =
      (⟨400, false, "Invalid or expired session", none⟩, emptyStore) ∧
    resendOtp emptyStore "bogus-token" (fun _ => ⟨true, "OTP resent successfully"⟩) =
      (⟨400, false, "Invalid or expired session"⟩, emptyStore) ∧
    verifyLoginOtp emptyStore "bogus-token" "123456" (fun _ => none) =
      (⟨400, false, "Invalid or expired session", none⟩, emptyStore) :=
  ⟨⟨by decide, rfl, by decide⟩,
    c5_generic_not_found emptyStore "bogus-token" "123456" wConfirmOk
      (fun _ => ⟨true, "OTP resent successfully"⟩) (fun _ => none)
      (by decide) rfl (by decide)⟩

/-! ## Claim C6: malformed code rejected before any provider call -/

/-- C6: a confirm request (signup or login) whose code is not exactly 6
ASCII digits is answered 400, the store is left unchanged (no session
is consumed), and the signup-confirm response does not depend on the
provider-confirm function at all — no provider call influences it. -/
theorem c6_malformed_code :
    ∀ (store : Store) (token otp : String)
      (f g : String → String → CognitoUser → OTPVerificationResult)
      (findUser : String → Option UserRecord),
      isSixDigits otp = false →
      (verifyOtpSignup store token otp f).1.status = 400 ∧
      (verifyOtpSignup store token otp f).2 = store ∧
      verifyOtpSignup store token otp f = verifyOtpSignup store token otp g ∧
      (verifyLoginOtp store token otp findUser).1.status = 400 ∧
      (verifyLoginOtp store token otp findUser).2 = store := by
  intro store token otp f g findUser h
  by_cases h1 : token = "" <;> by_cases h2 : otp = "" <;>
    simp [verifyOtpSignup, verifyLoginOtp, h1, h2, h]

/-- Witness for C6: the wrong-length code `"12"` from §8 of the spec. -/
theorem c6_witness :
    isSixDigits "12" = false ∧
    (verifyOtpSignup wStore "session_735269466602_5" "12" wConfirmOk).1.status = 400 ∧
    (verifyOtpSignup wStore "session_735269466602_5" "12" wConfirmOk).2 = wStore :=
  ⟨by decide,
    (c6_malformed_code wStore "session_735269466602_5" "12" wConfirmOk wConfirmOk
      (fun _ => none) (by decide)).1,
    (c6_malformed_code wStore "session_735269466602_5" "12" wConfirmOk wConfirmOk
      (fun _ => none) (by decide)).2.1⟩

/-! ## Claim C7: degraded (unconfigured) mode of the adapter -/

/-- C7 counterexample: `getUserDetails` (lookup-identity) does NOT
short-circuit when the adapter is unconfigured.  With both
configuration values absent it still invokes the provider client
(second component `true`), its result follows the provider outcome
rather than being a deterministic simulated success, and a failing
outcome yields `success = false`. -/
theorem c7_counterexample :
    (getUserDetails ⟨none, none⟩ "someuser" (.err "Missing credentials")).2 = true ∧
    (getUserDetails ⟨none, none⟩ "someuser" (.err "Missing credentials")).1.success = false ∧
    getUserDetails ⟨none, none⟩ "someuser" (.err "Missing credentials") ≠
      getUserDetails ⟨none, none⟩ "someuser" .ok := by
  refine ⟨rfl, rfl, ?_⟩
  decide

/-- C7 (amended): when the adapter is unconfigured, the four operations
that do guard on configuration — create-pending-identity
(`createUserAndSendOTP`), confirm-identity (`verifyOTPAndSignup`),
resend-code (`resendOTPForUsername`) and password-authenticate
(`verifyPassword`) — each return a deterministic simulated success
(fully determined by their inputs, independent of the provider outcome)
without invoking the provider client; lookup-identity
(`getUserDetails`) is the exception and always invokes it. -/
theorem c7_degraded_mode :
    ∀ (cfg : CognitoConfig), configured cfg = false →
      ∀ (userData : CognitoUser) (now : Nat) (provider : ProviderOutcome)
        (token otpCode username password : String) (auth : AuthOutcome),
      createUserAndSendOTP cfg userData now provider =
        ({ success := true,
           message := "User created and OTP sent to " ++ userData.phone ++ " (simulated)",
           sessionToken := some (signupToken userData.aadharNo now),
           cognitoId := some ("sim_" ++ userData.username) }, false) ∧
      verifyOTPAndSignup cfg token otpCode userData provider =
        ({ success := true, message := "Confirmed (simulated)",
           cognitoId := some userData.username }, false) ∧
      resendOTPForUsername cfg username provider =
        ({ success := true, message := "OTP resent (simulated)" }, false) ∧
      verifyPassword cfg username password auth =
        ({ success := true, message := "Password verified (simulated)",
           tokens := none }, false) ∧
      (getUserDetails cfg username provider).2 = true := by
  intro cfg hcfg userData now provider token otpCode username password auth
  refine ⟨?_, ?_, ?_, ?_, ?_⟩
  · unfold createUserAndSendOTP; rw [if_pos (by simp [hcfg])]
  · unfold verifyOTPAndSignup; rw [if_pos (by simp [hcfg])]
  · unfold resendOTPForUsername; rw [if_pos (by simp [hcfg])]
  · unfold verifyPassword; rw [if_pos (by simp [hcfg])]
  · unfold getUserDetails; cases provider <;> rfl

/-- Witness for the C7 amended theorem with an entirely absent
configuration and an erroring provider. -/
theorem c7_witness :
    configured ⟨none, none⟩ = false ∧
    createUserAndSendOTP ⟨none, none⟩ (cognitoUserOfSession wSess) 5 (.err "boom") =
      ({ success := true,
         message := "User created and OTP sent to " ++
           (cognitoUserOfSession wSess).phone ++ " (simulated)",
         sessionToken := some (signupToken (cognitoUserOfSession wSess).aadharNo 5),
         cognitoId := some ("sim_" ++ (cognitoUserOfSession wSess).username) }, false) ∧
    verifyPassword ⟨none, none⟩ "user" "Password1" (.err "boom") =
      ({ success := true, message := "Password verified (simulated)",
         tokens := none }, false) :=
  ⟨rfl,
    (c7_degraded_mode ⟨none, none⟩ rfl (cognitoUserOfSession wSess) 5 (.err "boom")
      "tok" "123456" "user" "Password1" (.err "boom")).1,
    (c7_degraded_mode ⟨none, none⟩ rfl (cognitoUserOfSession wSess) 5 (.err "boom")
      "tok" "123456" "user" "Password1" (.err "boom")).2.2.2.1⟩

/-! ## Claim C3: distinctness of generated session tokens -/

/-- Decimal value of a digit character (proof scaffolding for the
injectivity of decimal rendering). -/
def digitVal (c : Char) : Nat := c.toNat - '0'.toNat

/-- Value of a most-significant-first decimal digit string. -/
def valOfDigits (l : List Char) : Nat := l.foldl (fun a c => 10 * a + digitVal c) 0

theorem toDigitsCore_acc (b : Nat) :
    ∀ (f n : Nat) (ds : List Char),
      Nat.toDigitsCore b f n ds = Nat.toDigitsCore b f n [] ++ ds := by
  intro f
  induction f with
  | zero => intro n ds; simp [Nat.toDigitsCore]
  | succ f ih =>
    intro n ds
    unfold Nat.toDigitsCore
    dsimp only
    by_cases h : n / b = 0
    · simp [h]
    · rw [if_neg h, if_neg h, ih (n / b) (Nat.digitChar (n % b) :: ds),
          ih (n / b) [Nat.digitChar (n % b)]]
      simp

theorem valOfDigits_append_singleton (l : List Char) (c : Char) :
    valOfDigits (l ++ [c]) = 10 * valOfDigits l + digitVal c := by
  simp [valOfDigits, List.foldl_append]

theorem digitVal_digitChar (k : Nat) (h : k < 10) :
    digitVal (Nat.digitChar k) = k := by
  interval_cases k <;> rfl

theorem valOfDigits_toDigitsCore :
    ∀ (f n : Nat), n < f → valOfDigits (Nat.toDigitsCore 10 f n []) = n := by
  intro f
  induction f with
  | zero => omega
  | succ f ih =>
    intro n hn
    unfold Nat.toDigitsCore
    dsimp only
    by_cases h : n / 10 = 0
    · rw [if_pos h]
      have hlt : n < 10 := by
        rcases Nat.lt_or_ge n 10 with h10 | h10
        · exact h10
        · exact absurd h (by
            have := Nat.div_le_div_right (c := 10) h10
            simp at this
            omega)
      have hm : n % 10 = n := Nat.mod_eq_of_lt hlt
      simp [valOfDigits, hm, digitVal_digitChar n hlt]
    · have hnpos : 0 < n := by
        rcases Nat.eq_zero_or_pos n with rfl | hp
        · simp at h
        · exact hp
      have hdiv : n / 10 < n := Nat.div_lt_self hnpos (by norm_num)
      rw [if_neg h, toDigitsCore_acc, valOfDigits_append_singleton,
          ih (n / 10) (by omega),
          digitVal_digitChar (n % 10) (Nat.mod_lt n (by norm_num))]
      omega

/-- The decimal rendering of a natural number is injective. -/
theorem natRepr_injective : Function.Injective Nat.repr := by
  intro m n h
  have hm : valOfDigits (Nat.toDigitsCore 10 (m + 1) m []) = m :=
    valOfDigits_toDigitsCore (m + 1) m (Nat.lt_succ_self m)
  have hn : valOfDigits (Nat.toDigitsCore 10 (n + 1) n []) = n :=
    valOfDigits_toDigitsCore (n + 1) n (Nat.lt_succ_self n)
  have hl : Nat.toDigitsCore 10 (m + 1) m [] = Nat.toDigitsCore 10 (n + 1) n [] := by
    have := congrArg String.data h
    simpa [Nat.repr, Nat.toDigits, List.asString] using this
  rw [hl] at hm
  omega

theorem data_of_token (pre a : String) (t : Nat) :
    (pre ++ a ++ "_" ++ Nat.repr t).data =
      pre.data ++ (a.data ++ '_' :: (Nat.repr t).data) := by
  simp [String.data_append]

theorem token_body_inj {a1 a2 : String} {t1 t2 : Nat}
    (h1 : a1.length = 12) (h2 : a2.length = 12)
    (hd : a1.data ++ '_' :: (Nat.repr t1).data = a2.data ++ '_' :: (Nat.repr t2).data) :
    a1 = a2 ∧ t1 = t2 := by
  have hlen : a1.data.length = a2.data.length := by
    have e1 : a1.data.length = a1.length := rfl
    have e2 : a2.data.length = a2.length := rfl
    omega
  obtain ⟨ha, hr⟩ := List.append_inj hd hlen
  constructor
  · exact String.ext ha
  · have hres : (Nat.repr t1).data = (Nat.repr t2).data := by
      injection hr
    exact natRepr_injective (String.ext hres)

theorem signupToken_inj {a1 a2 : String} {t1 t2 : Nat}
    (h1 : a1.length = 12) (h2 : a2.length = 12)
    (h : signupToken a1 t1 = signupToken a2 t2) : a1 = a2 ∧ t1 = t2 := by
  have hd := congrArg String.data h
  rw [show signupToken a1 t1 = "session_" ++ a1 ++ "_" ++ Nat.repr t1 from rfl,
      show signupToken a2 t2 = "session_" ++ a2 ++ "_" ++ Nat.repr t2 from rfl,
      data_of_token, data_of_token] at hd
  exact token_body_inj h1 h2 (List.append_cancel_left hd)

theorem loginToken_inj {a1 a2 : String} {t1 t2 : Nat}
    (h1 : a1.length = 12) (h2 : a2.length = 12)
    (h : loginToken a1 t1 = loginToken a2 t2) : a1 = a2 ∧ t1 = t2 := by
  have hd := congrArg String.data h
  rw [show loginToken a1 t1 = "login_session_" ++ a1 ++ "_" ++ Nat.repr t1 from rfl,
      show loginToken a2 t2 = "login_session_" ++ a2 ++ "_" ++ Nat.repr t2 from rfl,
      data_of_token, data_of_token] at hd
  exact token_body_inj h1 h2 (List.append_cancel_left hd)

theorem signupToken_ne_loginToken (a1 a2 : String) (t1 t2 : Nat) :
    signupToken a1 t1 ≠ loginToken a2 t2 := by
  intro h
  have hd := congrArg String.data h
  rw [show signupToken a1 t1 = "session_" ++ a1 ++ "_" ++ Nat.repr t1 from rfl,
      show loginToken a2 t2 = "login_session_" ++ a2 ++ "_" ++ Nat.repr t2 from rfl,
      data_of_token, data_of_token] at hd
  rw [show ("session_" : String).data = ['s','e','s','s','i','o','n','_'] from rfl,
      show ("login_session_" : String).data =
        ['l','o','g','i','n','_','s','e','s','s','i','o','n','_'] from rfl] at hd
  simp at hd

/-- C3 counterexample: the generated token is a pure function of the
flow kind, the account identifier and the millisecond timestamp, so two
DISTINCT create invocations that share those three parameters (two
concurrent signup-starts for the same account in the same millisecond)
generate the SAME token — the universal distinctness the claim states
is false. -/
theorem c3_counterexample :
    ¬ (∀ e1 e2 : CreateEvent, e1 ≠ e2 → tokenOfEvent e1 ≠ tokenOfEvent e2) := by
  intro h
  exact h ⟨0, true, "735269466602", 1000⟩ ⟨1, true, "735269466602", 1000⟩
    (by decide) rfl

/-- C3 (amended): two create operations generate distinct tokens
whenever they differ in flow kind (signup vs login), account identifier
or millisecond timestamp — equivalently, for 12-character account
identifiers, equal tokens force equal kind, identifier and timestamp.
Tokens can only repeat when all three coincide. -/
theorem c3_token_distinctness :
    ∀ e1 e2 : CreateEvent, e1.aadharNo.length = 12 → e2.aadharNo.length = 12 →
      tokenOfEvent e1 = tokenOfEvent e2 →
      e1.isSignup = e2.isSignup ∧ e1.aadharNo = e2.aadharNo ∧ e1.time = e2.time := by
  rintro ⟨i1, k1, a1, t1⟩ ⟨i2, k2, a2, t2⟩ h1 h2 h
  dsimp [tokenOfEvent] at h1 h2 h ⊢
  cases k1 <;> cases k2 <;> simp at h ⊢
  · exact loginToken_inj h1 h2 h
  · exact absurd h.symm (signupToken_ne_loginToken a2 a1 t2 t1)
  · exact absurd h (signupToken_ne_loginToken a1 a2 t1 t2)
  · exact signupToken_inj h1 h2 h

/-- Witness for the C3 amended theorem at two concrete events. -/
theorem c3_witness :
    (("735269466602" : String).length = 12 ∧
      tokenOfEvent ⟨0, true, "735269466602", 1000⟩ =
        tokenOfEvent ⟨1, true, "735269466602", 1000⟩) ∧
    (true = true ∧ ("735269466602" : String) = "735269466602" ∧ (1000 : Nat) = 1000) :=
  ⟨⟨by decide, rfl⟩,
    c3_token_distinctness ⟨0, true, "735269466602", 1000⟩ ⟨1, true, "735269466602", 1000⟩
      (by decide) (by decide) rfl⟩
